import Mathlib

/-!
Shallow embedding of the athenaeum event queue core: the `events` table,
the `EventProcessor` operations (claim, complete, fail, insert, inspect)
from src/agent/event_processor.py, and the `Worker` dispatch from
src/agent/worker_pool.py.

Timestamps are modelled as integers (seconds); `NOW()` / `datetime.utcnow()`
is an explicit `now : Int` parameter.  The store is a list of event rows.
A store-level exception during an operation (connectivity loss, commit
failure) is modelled by an explicit `err : Bool` flag: when it is true the
operation takes the `except` branch of the source, which rolls the
transaction back (state unchanged) and returns the negative result.
-/

/-- One row of the `events` table (database/models.py, class `Event`). -/
structure Event where
  id : Nat
  event_type : String
  payload : String
  status : String
  visibility_timeout : Option Int
  claimed_by : Option String
  retry_count : Nat
  error_message : Option String
  created_at : Int
  processed_at : Option Int
deriving Repr, DecidableEq

/-- SQL comparison `visibility_timeout < NOW()` with NULL semantics:
a NULL timestamp compares to nothing, so the predicate is false. -/
def vtElapsed (now : Int) (vt : Option Int) : Bool :=
  match vt with
  | some t => decide (t < now)
  | none => false

/-- The WHERE clause of the claim query in `EventProcessor.claim_event`:
`(status = 'pending' OR (status = 'processing' AND visibility_timeout < NOW()))
 AND retry_count < :max_retry_count`. -/
def eligible (now : Int) (max_retry_count : Nat) (e : Event) : Bool :=
  (e.status == "pending"
    || (e.status == "processing" && vtElapsed now e.visibility_timeout))
  && decide (e.retry_count < max_retry_count)

/-- `ORDER BY created_at ASC LIMIT 1`: the first row with minimal
`created_at` (ties broken deterministically by list position). -/
def selectOldest : List Event → Option Event
  | [] => none
  | e :: es =>
    match selectOldest es with
    | none => some e
    | some b => if b.created_at < e.created_at then some b else some e

/-- The SET clause of the claim query: `status = 'processing',
claimed_by = :worker_id, visibility_timeout = NOW() + :timeout seconds`. -/
def claimedUpdate (worker_id : String) (timeout now : Int) (e : Event) : Event :=
  { e with
    status := "processing"
    claimed_by := some worker_id
    visibility_timeout := some (now + timeout) }

/-- `EventProcessor.claim_event`: atomically select the oldest eligible row,
mark it processing with a fresh lease, and return it; return `none` when no
row is eligible.  `err = true` models the `except` branch: rollback and
return `none` with the store unchanged. -/
def claim_event (err : Bool) (worker_id : String) (timeout : Int)
    (max_retry_count : Nat) (now : Int) (st : List Event) :
    Option Event × List Event :=
  if err then (none, st) else
  match selectOldest (st.filter (eligible now max_retry_count)) with
  | none => (none, st)
  | some e0 =>
    let e1 := claimedUpdate worker_id timeout now e0
    (some e1, st.map (fun x => if x.id = e0.id then e1 else x))

/-- `EventProcessor.complete_event`: set `status = "completed"`,
`processed_at = utcnow`, `visibility_timeout = None` on the given event and
commit.  Returns the success flag, the event object after the call, and the
store after the call; `err = true` models the `except` branch (rollback,
return False, nothing changed). -/
def complete_event (err : Bool) (now : Int) (e : Event) (st : List Event) :
    Bool × Event × List Event :=
  if err then (false, e, st) else
  let e1 := { e with
    status := "completed"
    processed_at := some now
    visibility_timeout := none }
  (true, e1, st.map (fun x => if x.id = e.id then e1 else x))

/-- `EventProcessor.fail_event`: increment `retry_count`, record the error
message; if the new count reaches `max_retry_count` mark the event
permanently failed, otherwise put it back to pending with an exponential
backoff lease `min(300, 2 ** retry_count * 10)` seconds in the future.
`err = true` models the `except` branch (rollback, return False). -/
def fail_event (err : Bool) (max_retry_count : Nat) (now : Int)
    (e : Event) (error_message : String) (st : List Event) :
    Bool × Event × List Event :=
  if err then (false, e, st) else
  let rc := e.retry_count + 1
  let e1 :=
    if max_retry_count ≤ rc then
      { e with
        retry_count := rc
        error_message := some error_message
        status := "failed"
        processed_at := some now
        visibility_timeout := none }
    else
      { e with
        retry_count := rc
        error_message := some error_message
        status := "pending"
        visibility_timeout := some (now + (min 300 (2 ^ rc * 10) : Nat)) }
  (true, e1, st.map (fun x => if x.id = e.id then e1 else x))

/-- `EventProcessor.insert_event`: append a fresh `pending` row (column
defaults from database/models.py: `retry_count = 0`, nullable fields NULL,
`created_at = utcnow`) and return its id; `err = true` models the `except`
branch (rollback, return None). -/
def insert_event (err : Bool) (next_id : Nat) (event_type payload : String)
    (now : Int) (st : List Event) : Option Nat × List Event :=
  if err then (none, st) else
  let e : Event :=
    { id := next_id
      event_type := event_type
      payload := payload
      status := "pending"
      visibility_timeout := none
      claimed_by := none
      retry_count := 0
      error_message := none
      created_at := now
      processed_at := none }
  (some next_id, st ++ [e])

/-- `EventProcessor.get_queue_depth`: count of `pending` rows, or `-1` when
the query raises. -/
def get_queue_depth (err : Bool) (st : List Event) : Int :=
  if err then -1 else
  ((st.filter (fun e => e.status == "pending")).length : Int)

/-- `EventProcessor.get_processing_count`: count of `processing` rows whose
`visibility_timeout > utcnow` (NULL excluded), or `-1` when the query
raises. -/
def get_processing_count (err : Bool) (now : Int) (st : List Event) : Int :=
  if err then -1 else
  ((st.filter (fun e =>
    e.status == "processing"
      && (match e.visibility_timeout with
          | some t => decide (now < t)
          | none => false))).length : Int)

/-- `EventProcessor.get_queue_stats`: counts grouped by status plus the
count of `processing` rows whose lease already expired, as an association
list; the empty map when the query raises. -/
def get_queue_stats (err : Bool) (now : Int) (st : List Event) :
    List (String × Int) :=
  if err then [] else
  ((st.map Event.status).dedup.map (fun s =>
      (s, ((st.filter (fun e => e.status == s)).length : Int))))
  ++ [("expired_processing",
       ((st.filter (fun e =>
          e.status == "processing" && vtElapsed now e.visibility_timeout)).length : Int))]

/-- Per-worker counters (worker_pool.py, `WorkerStats`). -/
structure WorkerStats where
  worker_id : String
  events_processed : Nat
  events_failed : Nat
deriving Repr, DecidableEq

/-- `Worker._process_event`'s serialization of a raised processing error:
the Python f-string joining the exception type name and its message. -/
def serializeError (ename emsg : String) : String :=
  ename ++ ": " ++ emsg

/-- `Worker._process_event`: invoke the externally supplied processing
function on the claimed event; on normal return route to `complete_event`
and bump `events_processed`; on any raised error route to `fail_event`
with the serialized error and bump `events_failed`.  The raised error is
always caught here, so the dispatch is a total function. -/
def processEvent (process_func : Event → Except (String × String) Unit)
    (max_retry_count : Nat) (now : Int) (e : Event) (st : List Event)
    (stats : WorkerStats) : List Event × WorkerStats :=
  match process_func e with
  | Except.ok _ =>
    let r := complete_event false now e st
    (r.2.2, { stats with events_processed := stats.events_processed + 1 })
  | Except.error em =>
    let r := fail_event false max_retry_count now e (serializeError em.1 em.2) st
    (r.2.2, { stats with events_failed := stats.events_failed + 1 })

/-- Configuration state of an `EventProcessor` (event_processor.py,
constructor arguments with their declared defaults). -/
structure EventProcessorCfg where
  worker_id : String
  visibility_timeout : Nat
  max_retry_count : Nat
deriving Repr, DecidableEq

/-- `EventProcessor.__init__` with its default arguments
`visibility_timeout = 300`, `max_retry_count = 3`. -/
def mkEventProcessor (worker_id : String)
    (visibility_timeout : Nat := 300) (max_retry_count : Nat := 3) :
    EventProcessorCfg :=
  { worker_id := worker_id
    visibility_timeout := visibility_timeout
    max_retry_count := max_retry_count }

/-- Constructor state of a `Worker` (worker_pool.py): identity and poll
interval; the database connection and processing function are external. -/
structure WorkerCfg where
  worker_id : String
  poll_interval : Rat
deriving Repr, DecidableEq

/-- `Worker.run` line constructing the processor for each loop iteration:
`EventProcessor(session, worker_id=self.worker_id)` — only the worker id is
passed, every other argument takes its declared default. -/
def workerProcessor (w : WorkerCfg) : EventProcessorCfg :=
  mkEventProcessor w.worker_id

/-- Constructor state of a `WorkerPool` (worker_pool.py): size and poll
interval; the connection and processing function are external. -/
structure WorkerPoolCfg where
  size : Nat
  poll_interval : Rat
deriving Repr, DecidableEq

/-- `WorkerPool.start`'s construction of worker `i`:
`Worker(worker_id=f"worker-i", db_connection=..., process_func=...,
poll_interval=self.poll_interval)`. -/
def poolWorker (p : WorkerPoolCfg) (i : Nat) : WorkerCfg :=
  { worker_id := "worker-" ++ toString i
    poll_interval := p.poll_interval }

/-- A sequence of claim calls against one store at a single instant, each
executing the atomic claim statement in turn: the linearization of M
concurrent callers of `claim_event` (the entire read-lock-mutate sequence
is one indivisible SQL statement).  Returns the successfully claimed
events in order together with the final store. -/
def runClaims (workers : List String) (timeout : Int) (max_retry_count : Nat)
    (now : Int) (st : List Event) : List Event × List Event :=
  match workers with
  | [] => ([], st)
  | w :: rest =>
    match claim_event false w timeout max_retry_count now st with
    | (none, st1) => runClaims rest timeout max_retry_count now st1
    | (some e, st1) =>
      let r := runClaims rest timeout max_retry_count now st1
      (e :: r.1, r.2)

/-! ### Basic lemmas about the claim selection -/

theorem selectOldest_mem {l : List Event} {e : Event}
    (h : selectOldest l = some e) : e ∈ l := by
  induction l with
  | nil => simp [selectOldest] at h
  | cons a as ih =>
    simp only [selectOldest] at h
    cases hs : selectOldest as with
    | none => rw [hs] at h; simp at h; simp [h]
    | some b =>
      rw [hs] at h
      by_cases hb : b.created_at < a.created_at
      · simp [hb] at h; subst h; exact List.mem_cons_of_mem _ (ih hs)
      · simp [hb] at h; simp [h]

theorem selectOldest_eq_none {l : List Event} :
    selectOldest l = none ↔ l = [] := by
  cases l with
  | nil => simp [selectOldest]
  | cons a as =>
    simp only [selectOldest]
    cases selectOldest as with
    | none => simp
    | some b => by_cases hb : b.created_at < a.created_at <;> simp [hb]

theorem selectOldest_le {l : List Event} {e : Event}
    (h : selectOldest l = some e) :
    ∀ x ∈ l, e.created_at ≤ x.created_at := by
  induction l generalizing e with
  | nil => simp [selectOldest] at h
  | cons a as ih =>
    simp only [selectOldest] at h
    cases hs : selectOldest as with
    | none =>
      rw [hs] at h
      simp only [Option.some.injEq] at h
      subst h
      have hnil : as = [] := selectOldest_eq_none.mp hs
      subst hnil
      intro x hx
      simp only [List.mem_singleton] at hx
      subst hx
      exact le_refl _
    | some b =>
      rw [hs] at h
      by_cases hb : b.created_at < a.created_at
      · simp only [if_pos hb, Option.some.injEq] at h
        subst h
        intro x hx
        rcases List.mem_cons.mp hx with rfl | hx
        · exact le_of_lt hb
        · exact ih hs x hx
      · simp only [if_neg hb, Option.some.injEq] at h
        subst h
        intro x hx
        rcases List.mem_cons.mp hx with rfl | hx
        · exact le_refl _
        · exact le_trans (not_lt.mp hb) (ih hs x hx)

theorem claimedUpdate_id (w : String) (T now : Int) (e : Event) :
    (claimedUpdate w T now e).id = e.id := rfl

/-- Elimination for a successful claim: the returned event is an eligible
row of the store with the claim update applied, and the new store replaces
exactly the rows with its id. -/
theorem claim_event_some {w : String} {T : Int} {R : Nat} {now : Int}
    {st : List Event} {e : Event} {st' : List Event}
    (h : claim_event false w T R now st = (some e, st')) :
    ∃ e0, e0 ∈ st ∧ eligible now R e0 = true ∧
      (∀ x ∈ st, eligible now R x = true → e0.created_at ≤ x.created_at) ∧
      e = claimedUpdate w T now e0 ∧
      st' = st.map (fun x => if x.id = e0.id then e else x) := by
  simp only [claim_event, if_false, Bool.false_eq_true] at h
  cases hs : selectOldest (st.filter (eligible now R)) with
  | none => rw [hs] at h; simp at h
  | some e0 =>
    rw [hs] at h
    simp only [Prod.mk.injEq, Option.some.injEq] at h
    obtain ⟨he, hst⟩ := h
    refine ⟨e0, ?_, ?_, ?_, he.symm, ?_⟩
    · exact (List.mem_filter.mp (selectOldest_mem hs)).1
    · exact (List.mem_filter.mp (selectOldest_mem hs)).2
    · intro x hx hex
      exact selectOldest_le hs x (List.mem_filter.mpr ⟨hx, hex⟩)
    · rw [← hst, he]

/-- Elimination for an unsuccessful claim: the store is unchanged. -/
theorem claim_event_none {w : String} {T : Int} {R : Nat} {now : Int}
    {st st' : List Event}
    (h : claim_event false w T R now st = (none, st')) : st' = st := by
  simp only [claim_event, if_false, Bool.false_eq_true] at h
  cases hs : selectOldest (st.filter (eligible now R)) with
  | none => rw [hs] at h; simp at h; exact h.symm
  | some e0 => rw [hs] at h; simp at h

/-- C2: the claim contract.  A successful `claim_event` returns the single
oldest-by-`created_at` event that is pending, or processing with an elapsed
visibility timeout, with retry_count strictly below the maximum; it sets
that event to processing, claimed by the worker, leased until `now + T`.
When no such event exists it returns none and leaves the store unchanged. -/
theorem claim_event_contract (w : String) (T : Int) (R : Nat) (now : Int)
    (st : List Event) :
    (∀ e st', claim_event false w T R now st = (some e, st') →
      ∃ e0, e0 ∈ st ∧ eligible now R e0 = true ∧
        (∀ x ∈ st, eligible now R x = true → e0.created_at ≤ x.created_at) ∧
        e.status = "processing" ∧ e.claimed_by = some w ∧
        e.visibility_timeout = some (now + T) ∧
        e.id = e0.id ∧ e.retry_count = e0.retry_count ∧
        e.created_at = e0.created_at ∧
        st' = st.map (fun x => if x.id = e0.id then e else x)) ∧
    ((∀ x ∈ st, eligible now R x = false) ↔
      claim_event false w T R now st = (none, st)) := by
  constructor
  · intro e st' h
    obtain ⟨e0, hmem, helig, hmin, he, hst⟩ := claim_event_some h
    exact ⟨e0, hmem, helig, hmin, by rw [he]; rfl, by rw [he]; rfl,
      by rw [he]; rfl, by rw [he]; rfl, by rw [he]; rfl, by rw [he]; rfl, hst⟩
  · constructor
    · intro hall
      have hfil : st.filter (eligible now R) = [] := by
        apply List.filter_eq_nil_iff.mpr
        intro x hx
        simp [hall x hx]
      simp [claim_event, hfil, selectOldest]
    · intro h x hx
      by_contra hx2
      have hfil : x ∈ st.filter (eligible now R) :=
        List.mem_filter.mpr ⟨hx, by simpa using hx2⟩
      have hne : st.filter (eligible now R) ≠ [] := by
        intro hnil; rw [hnil] at hfil; simp at hfil
      cases hs : selectOldest (st.filter (eligible now R)) with
      | none => exact hne (selectOldest_eq_none.mp hs)
      | some e0 => simp [claim_event, hs] at h

/-! ### No double-claim under concurrent callers -/

/-- An event id none of whose rows is currently eligible for claiming. -/
def deadId (R : Nat) (now : Int) (st : List Event) (i : Nat) : Prop :=
  ∀ e ∈ st, e.id = i → eligible now R e = false

/-- A freshly claimed row is ineligible at the claiming instant whenever
the lease duration is nonnegative: its status is processing and its lease
expires at `now + T`, which has not elapsed. -/
theorem claimedUpdate_ineligible (w : String) {T : Int} (hT : 0 ≤ T)
    (now : Int) (R : Nat) (e : Event) :
    eligible now R (claimedUpdate w T now e) = false := by
  simp only [eligible, claimedUpdate, vtElapsed]
  have h1 : ("processing" == "pending") = false := by decide
  have h2 : ¬ (now + T < now) := by omega
  simp [h1, h2]

/-- Claiming preserves deadness of an id: the only row it rewrites becomes
a freshly leased processing row, itself ineligible. -/
theorem deadId_preserved {w : String} {T : Int} (hT : 0 ≤ T) {R : Nat}
    {now : Int} {st : List Event} {r : Option Event} {st' : List Event}
    (h : claim_event false w T R now st = (r, st'))
    {i : Nat} (hd : deadId R now st i) : deadId R now st' i := by
  cases r with
  | none =>
    rw [claim_event_none h]
    exact hd
  | some e =>
    obtain ⟨e0, _, _, _, he, hst⟩ := claim_event_some h
    subst hst
    intro x hx hxi
    obtain ⟨y, hy, hxy⟩ := List.mem_map.mp hx
    by_cases hyid : y.id = e0.id
    · rw [if_pos hyid] at hxy
      subst hxy
      rw [he]
      exact claimedUpdate_ineligible w hT now R e0
    · rw [if_neg hyid] at hxy
      subst hxy
      exact hd y hy hxi

/-- The id of a successfully claimed event was not dead before the claim. -/
theorem claimed_id_not_dead {w : String} {T : Int} {R : Nat} {now : Int}
    {st : List Event} {e : Event} {st' : List Event}
    (h : claim_event false w T R now st = (some e, st'))
    {i : Nat} (hd : deadId R now st i) : e.id ≠ i := by
  obtain ⟨e0, hmem, helig, _, he, _⟩ := claim_event_some h
  intro hei
  have h0 : e0.id = i := by rw [he] at hei; exact hei
  have := hd e0 hmem h0
  rw [helig] at this
  exact Bool.true_eq_false.mp this

/-- After a successful claim the claimed id is dead: every row carrying it
was rewritten to the freshly leased processing row. -/
theorem claimed_id_dead {w : String} {T : Int} (hT : 0 ≤ T) {R : Nat}
    {now : Int} {st : List Event} {e : Event} {st' : List Event}
    (h : claim_event false w T R now st = (some e, st')) :
    deadId R now st' e.id := by
  obtain ⟨e0, _, _, _, he, hst⟩ := claim_event_some h
  subst hst
  intro x hx hxi
  obtain ⟨y, hy, hxy⟩ := List.mem_map.mp hx
  by_cases hyid : y.id = e0.id
  · rw [if_pos hyid] at hxy
    subst hxy
    rw [he]
    exact claimedUpdate_ineligible w hT now R e0
  · rw [if_neg hyid] at hxy
    subst hxy
    exfalso
    apply hyid
    rw [hxi, he]
    rfl

/-- Main invariant for a sequence of claim calls at one instant: dead ids
are never claimed, and the claimed ids are pairwise distinct. -/
theorem runClaims_spec (T : Int) (hT : 0 ≤ T) (R : Nat) (now : Int) :
    ∀ (workers : List String) (st : List Event),
      (∀ i, deadId R now st i →
        i ∉ (runClaims workers T R now st).1.map Event.id) ∧
      ((runClaims workers T R now st).1.map Event.id).Nodup := by
  intro workers
  induction workers with
  | nil => intro st; simp [runClaims]
  | cons w rest ih =>
    intro st
    rcases hc : claim_event false w T R now st with ⟨r, st1⟩
    cases r with
    | none =>
      have hrun : runClaims (w :: rest) T R now st = runClaims rest T R now st1 := by
        simp [runClaims, hc]
      rw [hrun]
      exact ⟨fun i hd => (ih st1).1 i (deadId_preserved hT hc hd), (ih st1).2⟩
    | some e =>
      have hrun : (runClaims (w :: rest) T R now st).1
          = e :: (runClaims rest T R now st1).1 := by
        simp [runClaims, hc]
      constructor
      · intro i hd
        rw [hrun]
        simp only [List.map_cons, List.mem_cons]
        rintro (hi | hi)
        · exact claimed_id_not_dead hc hd hi.symm
        · exact (ih st1).1 i (deadId_preserved hT hc hd) hi
      · rw [hrun]
        simp only [List.map_cons, List.nodup_cons]
        exact ⟨(ih st1).1 e.id (claimed_id_dead hT hc), (ih st1).2⟩

/-- C1: no double-claim.  For any store of events and any number of
concurrent callers of `claim_event` — modelled by the linearization of
their atomic claim statements at one instant — the multiset of
successfully claimed events contains no duplicate event: no two calls
return the same event, so no two workers hold an active lease on the same
event at the same instant. -/
theorem no_double_claim (workers : List String) (T : Int) (hT : 0 ≤ T)
    (R : Nat) (now : Int) (st : List Event) :
    ((runClaims workers T R now st).1.map Event.id).Nodup :=
  (runClaims_spec T hT R now workers st).2

/-- Witness for C1 at a concrete store: three workers racing for two
pending events each claim a distinct event. -/
theorem no_double_claim_witness :
    (0 : Int) ≤ 60 ∧
    ((runClaims ["worker-0", "worker-1", "worker-2"] 60 3 1000
      [{ id := 1, event_type := "app_mention", payload := "p1",
         status := "pending", visibility_timeout := none, claimed_by := none,
         retry_count := 0, error_message := none, created_at := 10,
         processed_at := none },
       { id := 2, event_type := "message", payload := "p2",
         status := "pending", visibility_timeout := none, claimed_by := none,
         retry_count := 0, error_message := none, created_at := 20,
         processed_at := none }]).1.map Event.id).Nodup :=
  ⟨by decide,
   no_double_claim ["worker-0", "worker-1", "worker-2"] 60 (by decide) 3 1000 _⟩

/-! ### Concrete events used by witnesses and concrete evaluations -/

/-- A fresh pending row as `insert_event` creates it. -/
def baseEvent : Event :=
  { id := 1
    event_type := "app_mention"
    payload := "p"
    status := "pending"
    visibility_timeout := none
    claimed_by := none
    retry_count := 0
    error_message := none
    created_at := 0
    processed_at := none }

/-- A terminally completed row: completed at time 50, never retried. -/
def evDone : Event :=
  { baseEvent with id := 4, status := "completed", processed_at := some 50 }

/-- A pending row that a non-terminal fail put back with a backoff lease
expiring at time 200. -/
def evBackoff : Event :=
  { baseEvent with id := 9, visibility_timeout := some 200, retry_count := 1 }

/-- Witness for C2 on a concrete store: a store holding only a completed
row has no eligible event, so the claim returns none and leaves it
unchanged. -/
theorem claim_event_contract_witness :
    claim_event false "worker-0" 300 3 500 [evDone] = (none, [evDone]) :=
  (claim_event_contract "worker-0" 300 3 500 [evDone]).2.mp (by decide)

/-- C3 fails on the code: `fail_event` has no terminal-status guard, so a
fail call against a completed event increments its `retry_count` and moves
its `status` from `completed` back to `pending`; `complete_event` likewise
overwrites `processed_at` with a fresh timestamp on a second call. -/
theorem terminal_immutability_violated :
    evDone.status = "completed" ∧ evDone.retry_count = 0 ∧
    evDone.processed_at = some 50 ∧
    (fail_event false 3 100 evDone "boom" [evDone]).2.1.status = "pending" ∧
    (fail_event false 3 100 evDone "boom" [evDone]).2.1.retry_count = 1 ∧
    (complete_event false 100 evDone [evDone]).2.1.processed_at = some 100 := by
  decide

/-- C4: the backoff formula.  A non-terminal fail (new retry_count still
below the maximum) leases the event until
`now + min(300, 10 * 2 ^ r)` seconds where `r` is the retry count after
the increment; the listed instances evaluate to 20, 40, 80, 160 and 300
(320 capped) seconds. -/
theorem backoff_formula (e : Event) (m : String) (st : List Event)
    (max_retry_count : Nat) (now : Int)
    (h : e.retry_count + 1 < max_retry_count) :
    (fail_event false max_retry_count now e m st).2.1.visibility_timeout
      = some (now + (min 300 (10 * 2 ^ (e.retry_count + 1)) : Nat)) ∧
    (min 300 (10 * 2 ^ 1) : Nat) = 20 ∧
    (min 300 (10 * 2 ^ 2) : Nat) = 40 ∧
    (min 300 (10 * 2 ^ 3) : Nat) = 80 ∧
    (min 300 (10 * 2 ^ 4) : Nat) = 160 ∧
    (min 300 (10 * 2 ^ 5) : Nat) = 300 := by
  have h2 : ¬ (max_retry_count ≤ e.retry_count + 1) := by omega
  refine ⟨?_, by decide, by decide, by decide, by decide, by decide⟩
  simp [fail_event, h2, Nat.mul_comm]

/-- Witness for C4: failing a fresh event (retry 0 to 1, maximum 3) at
time 50 leases it until 70, a 20-second delay. -/
theorem backoff_formula_witness :
    (fail_event false 3 50 baseEvent "err" [baseEvent]).2.1.visibility_timeout
      = some 70 := by
  have h := (backoff_formula baseEvent "err" [baseEvent] 3 50 (by decide)).1
  simpa using h

/-- C5: retry exhaustion.  With `max_retry_count = 3`, three consecutive
fail calls on a fresh event drive `retry_count` through 1, 2, 3; the first
two put it back to pending, and the third marks it terminally failed with
`processed_at` and `error_message` recorded. -/
theorem retry_exhaustion :
    (fail_event false 3 100 baseEvent "e1" [baseEvent]).2.1.retry_count = 1 ∧
    (fail_event false 3 100 baseEvent "e1" [baseEvent]).2.1.status = "pending" ∧
    (fail_event false 3 200
      (fail_event false 3 100 baseEvent "e1" [baseEvent]).2.1 "e2"
      (fail_event false 3 100 baseEvent "e1" [baseEvent]).2.2).2.1.retry_count = 2 ∧
    (fail_event false 3 200
      (fail_event false 3 100 baseEvent "e1" [baseEvent]).2.1 "e2"
      (fail_event false 3 100 baseEvent "e1" [baseEvent]).2.2).2.1.status = "pending" ∧
    (fail_event false 3 300
      (fail_event false 3 200
        (fail_event false 3 100 baseEvent "e1" [baseEvent]).2.1 "e2"
        (fail_event false 3 100 baseEvent "e1" [baseEvent]).2.2).2.1 "e3"
      (fail_event false 3 200
        (fail_event false 3 100 baseEvent "e1" [baseEvent]).2.1 "e2"
        (fail_event false 3 100 baseEvent "e1" [baseEvent]).2.2).2.2).2.1.retry_count = 3 ∧
    (fail_event false 3 300
      (fail_event false 3 200
        (fail_event false 3 100 baseEvent "e1" [baseEvent]).2.1 "e2"
        (fail_event false 3 100 baseEvent "e1" [baseEvent]).2.2).2.1 "e3"
      (fail_event false 3 200
        (fail_event false 3 100 baseEvent "e1" [baseEvent]).2.1 "e2"
        (fail_event false 3 100 baseEvent "e1" [baseEvent]).2.2).2.2).2.1.status = "failed" ∧
    (fail_event false 3 300
      (fail_event false 3 200
        (fail_event false 3 100 baseEvent "e1" [baseEvent]).2.1 "e2"
        (fail_event false 3 100 baseEvent "e1" [baseEvent]).2.2).2.1 "e3"
      (fail_event false 3 200
        (fail_event false 3 100 baseEvent "e1" [baseEvent]).2.1 "e2"
        (fail_event false 3 100 baseEvent "e1" [baseEvent]).2.2).2.2).2.1.processed_at
      = some 300 ∧
    (fail_event false 3 300
      (fail_event false 3 200
        (fail_event false 3 100 baseEvent "e1" [baseEvent]).2.1 "e2"
        (fail_event false 3 100 baseEvent "e1" [baseEvent]).2.2).2.1 "e3"
      (fail_event false 3 200
        (fail_event false 3 100 baseEvent "e1" [baseEvent]).2.1 "e2"
        (fail_event false 3 100 baseEvent "e1" [baseEvent]).2.2).2.2).2.1.error_message
      = some "e3" := by
  decide

/-- C6 fails on the code: the claim query's WHERE clause checks
`visibility_timeout` only for processing rows, so a pending event whose
backoff lease is still in the future (here 200, claimed at time 100) is
returned by `claim_event` immediately instead of staying invisible. -/
theorem pending_backoff_not_invisible :
    (100 : Int) < 200 ∧
    evBackoff.status = "pending" ∧ evBackoff.visibility_timeout = some 200 ∧
    (claim_event false "worker-1" 30 3 100 [evBackoff]).1
      = some (claimedUpdate "worker-1" 30 100 evBackoff) := by
  decide

/-- C7: every store-level exception during claim, complete, fail or insert
takes the except branch of the source, which rolls the transaction back —
the store (and the event object) is exactly the pre-call one — and returns
the negative result (None for claim and insert, False for complete and
fail) instead of raising. -/
theorem store_error_rollback (w : String) (T : Int) (R : Nat) (now : Int)
    (e : Event) (m : String) (st : List Event) (next_id : Nat)
    (event_type payload : String) :
    claim_event true w T R now st = (none, st) ∧
    complete_event true now e st = (false, e, st) ∧
    fail_event true R now e m st = (false, e, st) ∧
    insert_event true next_id event_type payload now st = (none, st) :=
  ⟨rfl, rfl, rfl, rfl⟩

/-- C8: the Worker's dispatch.  For every externally supplied processing
function, the Worker invokes it on the claimed event; on normal return it
routes the event to `complete_event`, and on any raised error it routes it
to `fail_event` with the serialized error description.  `processEvent` is
a total function — the caught error never escapes to the Worker loop. -/
theorem worker_dispatch (process_func : Event → Except (String × String) Unit)
    (R : Nat) (now : Int) (e : Event) (st : List Event) (s : WorkerStats) :
    (process_func e = Except.ok () →
      processEvent process_func R now e st s
        = ((complete_event false now e st).2.2,
           { s with events_processed := s.events_processed + 1 })) ∧
    (∀ en em, process_func e = Except.error (en, em) →
      processEvent process_func R now e st s
        = ((fail_event false R now e (serializeError en em) st).2.2,
           { s with events_failed := s.events_failed + 1 })) := by
  constructor
  · intro h
    simp [processEvent, h]
  · intro en em h
    simp [processEvent, h, serializeError]

/-- Witness for C8: a processing function that raises routes the event to
`fail_event` with the serialized error. -/
theorem worker_dispatch_witness :
    processEvent (fun _ => Except.error ("ValueError", "bad payload")) 3 100
      baseEvent [baseEvent] ⟨"worker-0", 0, 0⟩
      = ((fail_event false 3 100 baseEvent
            (serializeError "ValueError" "bad payload") [baseEvent]).2.2,
         ⟨"worker-0", 0, 1⟩) :=
  (worker_dispatch (fun _ => Except.error ("ValueError", "bad payload"))
    3 100 baseEvent [baseEvent] ⟨"worker-0", 0, 0⟩).2
    "ValueError" "bad payload" rfl

/-- C9 fails on the code: `Worker.run` constructs its processor as
`EventProcessor(session, worker_id=...)`, so whatever the pool was
configured with, the lease duration is the hard-wired default 300 and the
maximum retry count the hard-wired default 3 — two pools with different
configurations yield workers with identical processor settings. -/
theorem worker_lease_config_not_from_pool :
    workerProcessor (poolWorker { size := 2, poll_interval := 5 } 0)
      = { worker_id := "worker-0", visibility_timeout := 300, max_retry_count := 3 } ∧
    workerProcessor (poolWorker { size := 8, poll_interval := (1 : Rat) / 2 } 1)
      = { worker_id := "worker-1", visibility_timeout := 300, max_retry_count := 3 } := by
  constructor <;> rfl

/-- C9 amended: every Worker's claim and fail operations run with the
EventProcessor's internal default lease duration (300 seconds) and maximum
retry count (3), independent of the pool's externally supplied
configuration, which covers only worker count and poll interval. -/
theorem worker_lease_config_hardwired (p : WorkerPoolCfg) (i : Nat) :
    (workerProcessor (poolWorker p i)).visibility_timeout = 300 ∧
    (workerProcessor (poolWorker p i)).max_retry_count = 3 :=
  ⟨rfl, rfl⟩

/-- C10: on a store-level error the inspection queries return in-band
sentinels instead of raising: `-1` (below every real count, which is a
nonnegative length) for queue depth and processing count, and the empty
map for queue stats. -/
theorem stats_error_sentinels (st : List Event) (now : Int) :
    get_queue_depth true st = -1 ∧
    get_processing_count true now st = -1 ∧
    get_queue_stats true now st = [] ∧
    get_queue_depth true st < 0 ∧
    0 ≤ get_queue_depth false st ∧
    0 ≤ get_processing_count false now st := by
  refine ⟨rfl, rfl, rfl, by norm_num [get_queue_depth], ?_, ?_⟩
  · simp [get_queue_depth]
  · simp [get_processing_count]
